import Mathlib

/-!
# PLY-Swift: the C adapter over `miniply::PLYReader`

A shallow embedding of `CPLY/Sources/CPLY/wrapper.cpp` (declared in
`include/PLYReaderWrapper.h`).

* A handle `PLYReaderRef` is a pointer: a natural number, `0` being `nullptr`.
* The heap of `PLYReaderWrapper` objects is explicit state (`World`).
* `miniply::PLYReader` is declared in `miniply.h`, which is not among the sources; the whole
  class is a parameter (`PLYReader`): every method is an arbitrary function of the reader
  object that either returns or throws, and may change the object.
* A pointer argument to a buffer is the buffer's contents (`Buffer`); a buffer the callee may
  write (`uint32_t*`, `void*`) is handed back with the outcome.
* An adapter function has one of three outcomes (`Outcome`): it returns, a C++ exception leaves
  it, or its behaviour is undefined (the handle is neither null nor live).
-/

namespace PLYSwift

/-- The type `PLYReaderRef` (`typedef struct PLYReaderWrapper* PLYReaderRef`): an address, `0`
is `nullptr`. -/
abbrev PLYReaderRef := Nat

/-- The words a buffer pointer (`uint32_t*`, `const float*`, `void*`) points to. The adapter
never interprets them, so they are kept as raw numbers. -/
abbrev Buffer := List Nat

/-- The class `miniply::PLYReader` as wrapper.cpp uses it. `R` is the reader object, `E` the
C++ exceptions, `T` the enumeration `miniply::PLYPropertyType`. A method takes the object and
its arguments and gives the value returned or the exception thrown, the object after the call,
and (for a method with a writable buffer argument) that buffer after the call.
`ctor` is the new-expression's fallible part: its error case is any exception thrown while
allocating or constructing. -/
structure PLYReader (R E T : Type) where
  ctor : String → Except E R
  valid : R → Except E Bool × R
  has_element : R → Except E Bool × R
  load_element : R → Except E Bool × R
  next_element : R → Except E Unit × R
  element_is : R → String → Except E Bool × R
  num_rows : R → Except E Nat × R
  find_pos : R → Buffer → Except E Bool × R × Buffer
  find_texcoord : R → Buffer → Except E Bool × R × Buffer
  find_indices : R → Buffer → Except E Bool × R × Buffer
  find_normal : R → Buffer → Except E Bool × R × Buffer
  extract_properties : R → Buffer → Nat → T → Buffer → Except E Bool × R × Buffer
  sum_of_list_counts : R → Nat → Except E Nat × R
  extract_list_property : R → Nat → T → Buffer → Except E Bool × R × Buffer
  requires_triangulation : R → Nat → Except E Bool × R
  num_triangles : R → Nat → Except E Nat × R
  extract_triangles : R → Nat → Buffer → Nat → T → Buffer → Except E Bool × R × Buffer
  /-- The conversion `static_cast<miniply::PLYPropertyType>(destType)` from `int`. -/
  static_cast : Int → T

/-- The heap of `PLYReaderWrapper` objects (`struct PLYReaderWrapper { miniply::PLYReader
reader; }`). The object at address `a + 1` is `objs[a]`; `none` is a deleted object. The
adapter has no other state: wrapper.cpp declares no global or static variable. -/
structure World (R : Type) where
  objs : List (Option R)
deriving DecidableEq, Repr

/-- What a call of an adapter function does. -/
inductive Outcome (E σ α : Type) where
  /-- The function returns `a`, leaving state `s`. -/
  | ret (a : α) (s : σ)
  /-- The exception `e` leaves the function, with state `s`. -/
  | raise (e : E) (s : σ)
  /-- Undefined behaviour: a pointer that is neither null nor live was dereferenced. -/
  | undefined
deriving DecidableEq, Repr

variable {R E T α σ : Type}

/-- The value returned, if the call returns. -/
def Outcome.value? : Outcome E σ α → Option α
  | .ret a _ => some a
  | _ => none

/-- What the caller observes: the value returned or the exception that reached it. -/
def Outcome.result? : Outcome E σ α → Option (Except E α)
  | .ret a _ => some (.ok a)
  | .raise e _ => some (.error e)
  | .undefined => none

/-- The state after the call, when the behaviour is defined. -/
def Outcome.state? : Outcome E σ α → Option σ
  | .ret _ s => some s
  | .raise _ s => some s
  | .undefined => none

/-- The object `*reader`: the wrapped reader a pointer refers to, if the pointer is live. -/
def World.deref (w : World R) : PLYReaderRef → Option R
  | 0 => none
  | a + 1 => (w.objs.get? a).join

/-- Write the reader object back at `reader` after a method ran on it. -/
def World.store (w : World R) (reader : PLYReaderRef) (r : R) : World R :=
  match reader with
  | 0 => w
  | a + 1 => { objs := w.objs.set a (some r) }

/-- The call `reader->reader.m(...)` for a method without a writable buffer. -/
def call (w : World R) (reader : PLYReaderRef) (m : R → Except E α × R) :
    Outcome E (World R) α :=
  match w.deref reader with
  | none => .undefined
  | some r =>
    match m r with
    | (.ok a, r') => .ret a (w.store reader r')
    | (.error e, r') => .raise e (w.store reader r')

/-- The call `reader->reader.m(..., buf)` for a method that may write the buffer `buf`. -/
def callBuf (w : World R) (reader : PLYReaderRef) (m : R → Except E α × R × Buffer) :
    Outcome E (World R × Buffer) α :=
  match w.deref reader with
  | none => .undefined
  | some r =>
    match m r with
    | (.ok a, r', b) => .ret a (w.store reader r', b)
    | (.error e, r', b) => .raise e (w.store reader r', b)

/-! ## Lifecycle -/

/-- The function `ply_reader_create`:
`try { return new PLYReaderWrapper(filename); } catch (...) { return nullptr; }`.
The new object gets a fresh address. -/
def ply_reader_create (P : PLYReader R E T) (w : World R) (filename : String) :
    Outcome E (World R) PLYReaderRef :=
  match P.ctor filename with
  | .ok r => .ret (w.objs.length + 1) { objs := w.objs ++ [some r] }
  | .error _ => .ret 0 w

/-- The function `ply_reader_destroy`: `delete reader;`. Deleting `nullptr` does nothing;
deleting a live object frees it; anything else is undefined. -/
def ply_reader_destroy (w : World R) (reader : PLYReaderRef) : Outcome E (World R) Unit :=
  match reader with
  | 0 => .ret () w
  | a + 1 =>
    match w.deref (a + 1) with
    | some _ => .ret () { objs := w.objs.set a none }
    | none => .undefined

/-! ## Query methods -/

/-- The function `ply_reader_valid`: `return reader && reader->reader.valid();`. -/
def ply_reader_valid (P : PLYReader R E T) (w : World R) (reader : PLYReaderRef) :
    Outcome E (World R) Bool :=
  if reader ≠ 0 then call w reader P.valid else .ret false w

/-- The function `ply_reader_has_element`:
`return reader && reader->reader.has_element();`. -/
def ply_reader_has_element (P : PLYReader R E T) (w : World R) (reader : PLYReaderRef) :
    Outcome E (World R) Bool :=
  if reader ≠ 0 then call w reader P.has_element else .ret false w

/-- The function `ply_reader_load_element`:
`return reader && reader->reader.load_element();`. -/
def ply_reader_load_element (P : PLYReader R E T) (w : World R) (reader : PLYReaderRef) :
    Outcome E (World R) Bool :=
  if reader ≠ 0 then call w reader P.load_element else .ret false w

/-- The function `ply_reader_next_element`:
`if (reader) { reader->reader.next_element(); }`. -/
def ply_reader_next_element (P : PLYReader R E T) (w : World R) (reader : PLYReaderRef) :
    Outcome E (World R) Unit :=
  if reader ≠ 0 then call w reader P.next_element else .ret () w

/-! ## Element info -/

/-- The function `ply_reader_element_is`:
`return reader && reader->reader.element_is(name);`. -/
def ply_reader_element_is (P : PLYReader R E T) (w : World R) (reader : PLYReaderRef)
    (name : String) : Outcome E (World R) Bool :=
  if reader ≠ 0 then call w reader (fun r => P.element_is r name) else .ret false w

/-- The function `ply_reader_num_rows`: `return reader ? reader->reader.num_rows() : 0;`. -/
def ply_reader_num_rows (P : PLYReader R E T) (w : World R) (reader : PLYReaderRef) :
    Outcome E (World R) Nat :=
  if reader ≠ 0 then call w reader P.num_rows else .ret 0 w

/-! ## Property finding -/

/-- The function `ply_reader_find_pos`:
`return reader && reader->reader.find_pos(propIdxs);`. -/
def ply_reader_find_pos (P : PLYReader R E T) (w : World R) (reader : PLYReaderRef)
    (propIdxs : Buffer) : Outcome E (World R × Buffer) Bool :=
  if reader ≠ 0 then callBuf w reader (fun r => P.find_pos r propIdxs)
  else .ret false (w, propIdxs)

/-- The function `ply_reader_find_texcoord`:
`return reader && reader->reader.find_texcoord(propIdxs);`. -/
def ply_reader_find_texcoord (P : PLYReader R E T) (w : World R) (reader : PLYReaderRef)
    (propIdxs : Buffer) : Outcome E (World R × Buffer) Bool :=
  if reader ≠ 0 then callBuf w reader (fun r => P.find_texcoord r propIdxs)
  else .ret false (w, propIdxs)

/-- The function `ply_reader_find_indices`:
`return reader && reader->reader.find_indices(propIdxs);`. -/
def ply_reader_find_indices (P : PLYReader R E T) (w : World R) (reader : PLYReaderRef)
    (propIdxs : Buffer) : Outcome E (World R × Buffer) Bool :=
  if reader ≠ 0 then callBuf w reader (fun r => P.find_indices r propIdxs)
  else .ret false (w, propIdxs)

/-- The function `ply_reader_find_normals`:
`return reader && reader->reader.find_normal(propIdxs);`. -/
def ply_reader_find_normals (P : PLYReader R E T) (w : World R) (reader : PLYReaderRef)
    (propIdxs : Buffer) : Outcome E (World R × Buffer) Bool :=
  if reader ≠ 0 then callBuf w reader (fun r => P.find_normal r propIdxs)
  else .ret false (w, propIdxs)

/-! ## Data extraction -/

/-- The function `ply_reader_extract_properties`: `if (!reader) return false;` and then
`return reader->reader.extract_properties(propIdxs, numProps,
static_cast<miniply::PLYPropertyType>(destType), dest);`. -/
def ply_reader_extract_properties (P : PLYReader R E T) (w : World R) (reader : PLYReaderRef)
    (propIdxs : Buffer) (numProps : Nat) (destType : Int) (dest : Buffer) :
    Outcome E (World R × Buffer) Bool :=
  if reader = 0 then .ret false (w, dest)
  else callBuf w reader
    (fun r => P.extract_properties r propIdxs numProps (P.static_cast destType) dest)

/-- The function `ply_reader_sum_of_list_counts`:
`return reader ? reader->reader.sum_of_list_counts(propIdx) : 0;`. -/
def ply_reader_sum_of_list_counts (P : PLYReader R E T) (w : World R) (reader : PLYReaderRef)
    (propIdx : Nat) : Outcome E (World R) Nat :=
  if reader ≠ 0 then call w reader (fun r => P.sum_of_list_counts r propIdx) else .ret 0 w

/-- The function `ply_reader_extract_list_property`: `if (!reader) return false;` and then
`return reader->reader.extract_list_property(propIdx,
static_cast<miniply::PLYPropertyType>(destType), dest);`. -/
def ply_reader_extract_list_property (P : PLYReader R E T) (w : World R)
    (reader : PLYReaderRef) (propIdx : Nat) (destType : Int) (dest : Buffer) :
    Outcome E (World R × Buffer) Bool :=
  if reader = 0 then .ret false (w, dest)
  else callBuf w reader
    (fun r => P.extract_list_property r propIdx (P.static_cast destType) dest)

/-! ## Triangulation -/

/-- The function `ply_reader_requires_triangulation`:
`return reader && reader->reader.requires_triangulation(propIdx);`. -/
def ply_reader_requires_triangulation (P : PLYReader R E T) (w : World R)
    (reader : PLYReaderRef) (propIdx : Nat) : Outcome E (World R) Bool :=
  if reader ≠ 0 then call w reader (fun r => P.requires_triangulation r propIdx)
  else .ret false w

/-- The function `ply_reader_num_triangles`:
`return reader ? reader->reader.num_triangles(propIdx) : 0;`. -/
def ply_reader_num_triangles (P : PLYReader R E T) (w : World R) (reader : PLYReaderRef)
    (propIdx : Nat) : Outcome E (World R) Nat :=
  if reader ≠ 0 then call w reader (fun r => P.num_triangles r propIdx) else .ret 0 w

/-- The function `ply_reader_extract_triangles`: `if (!reader) return false;` and then
`return reader->reader.extract_triangles(propIdx, pos, numVerts,
static_cast<miniply::PLYPropertyType>(destType), dest);`. -/
def ply_reader_extract_triangles (P : PLYReader R E T) (w : World R) (reader : PLYReaderRef)
    (propIdx : Nat) (pos : Buffer) (numVerts : Nat) (destType : Int) (dest : Buffer) :
    Outcome E (World R × Buffer) Bool :=
  if reader = 0 then .ret false (w, dest)
  else callBuf w reader
    (fun r => P.extract_triangles r propIdx pos numVerts (P.static_cast destType) dest)

/-! ## The adapter surface as a set of operations -/

/-- One call of a forwarding function of the adapter, with its arguments other than the
handle. -/
inductive Op where
  | valid
  | has_element
  | load_element
  | next_element
  | element_is (name : String)
  | num_rows
  | find_pos (propIdxs : Buffer)
  | find_texcoord (propIdxs : Buffer)
  | find_indices (propIdxs : Buffer)
  | find_normals (propIdxs : Buffer)
  | extract_properties (propIdxs : Buffer) (numProps : Nat) (destType : Int) (dest : Buffer)
  | sum_of_list_counts (propIdx : Nat)
  | extract_list_property (propIdx : Nat) (destType : Int) (dest : Buffer)
  | requires_triangulation (propIdx : Nat)
  | num_triangles (propIdx : Nat)
  | extract_triangles (propIdx : Nat) (pos : Buffer) (numVerts : Nat) (destType : Int)
      (dest : Buffer)
deriving DecidableEq, Repr

/-- A value returned across the boundary: `bool`, `uint32_t` or nothing (`void`). -/
inductive Res where
  | bool (b : Bool)
  | count (n : Nat)
  | unit
deriving DecidableEq, Repr

/-- The value the header documents for a call that does nothing: `false`, `0`, or nothing. -/
def Op.flat : Op → Res
  | .next_element => .unit
  | .num_rows => .count 0
  | .sum_of_list_counts _ => .count 0
  | .num_triangles _ => .count 0
  | _ => .bool false

/-- Repackage the outcome of a function without a writable buffer. -/
def Outcome.plain (f : α → Res) : Outcome E (World R) α → Outcome E (World R × Option Buffer) Res
  | .ret a w => .ret (f a) (w, none)
  | .raise e w => .raise e (w, none)
  | .undefined => .undefined

/-- Repackage the outcome of a function with a writable buffer. -/
def Outcome.buffered (f : α → Res) :
    Outcome E (World R × Buffer) α → Outcome E (World R × Option Buffer) Res
  | .ret a (w, b) => .ret (f a) (w, some b)
  | .raise e (w, b) => .raise e (w, some b)
  | .undefined => .undefined

/-- Run one operation through the adapter function of that name. The state after the call is
the heap and the writable buffer of the call, if it has one. -/
def runOp (P : PLYReader R E T) (w : World R) (reader : PLYReaderRef) :
    Op → Outcome E (World R × Option Buffer) Res
  | .valid => (ply_reader_valid P w reader).plain .bool
  | .has_element => (ply_reader_has_element P w reader).plain .bool
  | .load_element => (ply_reader_load_element P w reader).plain .bool
  | .next_element => (ply_reader_next_element P w reader).plain (fun _ => .unit)
  | .element_is name => (ply_reader_element_is P w reader name).plain .bool
  | .num_rows => (ply_reader_num_rows P w reader).plain .count
  | .find_pos propIdxs => (ply_reader_find_pos P w reader propIdxs).buffered .bool
  | .find_texcoord propIdxs => (ply_reader_find_texcoord P w reader propIdxs).buffered .bool
  | .find_indices propIdxs => (ply_reader_find_indices P w reader propIdxs).buffered .bool
  | .find_normals propIdxs => (ply_reader_find_normals P w reader propIdxs).buffered .bool
  | .extract_properties propIdxs numProps destType dest =>
    (ply_reader_extract_properties P w reader propIdxs numProps destType dest).buffered .bool
  | .sum_of_list_counts propIdx => (ply_reader_sum_of_list_counts P w reader propIdx).plain .count
  | .extract_list_property propIdx destType dest =>
    (ply_reader_extract_list_property P w reader propIdx destType dest).buffered .bool
  | .requires_triangulation propIdx =>
    (ply_reader_requires_triangulation P w reader propIdx).plain .bool
  | .num_triangles propIdx => (ply_reader_num_triangles P w reader propIdx).plain .count
  | .extract_triangles propIdx pos numVerts destType dest =>
    (ply_reader_extract_triangles P w reader propIdx pos numVerts destType dest).buffered .bool

/-- What the caller sees of one call: the value or exception, and the writable buffer. -/
abbrev Observation (E : Type) := Except E Res × Option Buffer

/-- Run a sequence of operations on one handle through the adapter, a caller that goes on after
an exception included. The result is what each call showed and the heap at the end; `none` when
some call had undefined behaviour. -/
def runOps (P : PLYReader R E T) (w : World R) (reader : PLYReaderRef) :
    List Op → Option (List (Observation E) × World R)
  | [] => some ([], w)
  | op :: ops =>
    match runOp P w reader op with
    | .undefined => none
    | .ret a (w', b) => (runOps P w' reader ops).map fun t => ((.ok a, b) :: t.1, t.2)
    | .raise e (w', b) => (runOps P w' reader ops).map fun t => ((.error e, b) :: t.1, t.2)

/-- Repackage the result of a reader method without a writable buffer. -/
def plainCall (f : α → Res) (x : Except E α × R) : Except E Res × R × Option Buffer :=
  (x.1.map f, x.2, none)

/-- Repackage the result of a reader method with a writable buffer. -/
def bufferedCall (f : α → Res) (x : Except E α × R × Buffer) :
    Except E Res × R × Option Buffer :=
  (x.1.map f, x.2.1, some x.2.2)

/-- The specification side of the forwarding: the method of the wrapped reader that corresponds
to an operation, called directly on the reader object with the same arguments, the type tag
converted by the cast. The spec pairs each operation with the capability of the same name,
the normal lookup and the advance among them. -/
def readerMethod (P : PLYReader R E T) (r : R) : Op → Except E Res × R × Option Buffer
  | .valid => plainCall .bool (P.valid r)
  | .has_element => plainCall .bool (P.has_element r)
  | .load_element => plainCall .bool (P.load_element r)
  | .next_element => plainCall (fun _ => .unit) (P.next_element r)
  | .element_is name => plainCall .bool (P.element_is r name)
  | .num_rows => plainCall .count (P.num_rows r)
  | .find_pos propIdxs => bufferedCall .bool (P.find_pos r propIdxs)
  | .find_texcoord propIdxs => bufferedCall .bool (P.find_texcoord r propIdxs)
  | .find_indices propIdxs => bufferedCall .bool (P.find_indices r propIdxs)
  | .find_normals propIdxs => bufferedCall .bool (P.find_normal r propIdxs)
  | .extract_properties propIdxs numProps destType dest =>
    bufferedCall .bool (P.extract_properties r propIdxs numProps (P.static_cast destType) dest)
  | .sum_of_list_counts propIdx => plainCall .count (P.sum_of_list_counts r propIdx)
  | .extract_list_property propIdx destType dest =>
    bufferedCall .bool (P.extract_list_property r propIdx (P.static_cast destType) dest)
  | .requires_triangulation propIdx => plainCall .bool (P.requires_triangulation r propIdx)
  | .num_triangles propIdx => plainCall .count (P.num_triangles r propIdx)
  | .extract_triangles propIdx pos numVerts destType dest =>
    bufferedCall .bool
      (P.extract_triangles r propIdx pos numVerts (P.static_cast destType) dest)

/-- The specification side for a sequence: the reader methods called one after the other
directly on the reader object. The result is what each call showed and the object at the
end. -/
def readerMethods (P : PLYReader R E T) (r : R) : List Op → List (Observation E) × R
  | [] => ([], r)
  | op :: ops =>
    let x := readerMethod P r op
    let t := readerMethods P x.2.1 ops
    ((x.1, x.2.2) :: t.1, t.2)

/-- The outcome of a forwarded call: the method's result handed on unchanged, the object it
left written back at the handle. -/
def forwarded (w : World R) (reader : PLYReaderRef) :
    Except E Res × R × Option Buffer → Outcome E (World R × Option Buffer) Res
  | (.ok a, r, b) => .ret a (w.store reader r, b)
  | (.error e, r, b) => .raise e (w.store reader r, b)

/-! ## A sample reader

A small reader used to evaluate the adapter on concrete inputs. It completes construction for a
file it cannot use and reports that through `valid()`. -/

/-- The object of the sample reader. -/
structure Sample where
  /-- What `valid()` reports. -/
  good : Bool
  /-- The elements from the current one on: name and number of rows. -/
  elems : List (String × Nat)
  /-- Whether the current element's data is loaded. -/
  loaded : Bool
  /-- Whether the data of the file ends early, so that loading throws. -/
  short : Bool
deriving DecidableEq, Repr

/-- The exceptions of the sample reader. -/
inductive SampleError where
  | open_failed
  | bad_data
deriving DecidableEq, Repr

/-- Rows of the current element of the sample reader. -/
def Sample.rows (r : Sample) : Nat :=
  match r.elems with
  | [] => 0
  | e :: _ => e.2

/-- The sample reader. Construction throws for "locked.ply" only; for any file it does not
know it completes with an invalid object. -/
def sampleReader : PLYReader Sample SampleError Int where
  ctor := fun path =>
    if path = "cube.ply" then
      .ok { good := true, elems := [("vertex", 3), ("face", 2)], loaded := false, short := false }
    else if path = "short.ply" then
      .ok { good := true, elems := [("vertex", 3)], loaded := false, short := true }
    else if path = "locked.ply" then .error .open_failed
    else .ok { good := false, elems := [], loaded := false, short := false }
  valid := fun r => (.ok r.good, r)
  has_element := fun r => (.ok (r.good && !r.elems.isEmpty), r)
  load_element := fun r =>
    if r.short then (.error .bad_data, r)
    else (.ok (r.good && !r.elems.isEmpty), { r with loaded := true })
  next_element := fun r => (.ok (), { r with elems := r.elems.tail, loaded := false })
  element_is := fun r name =>
    (.ok (match r.elems with
      | [] => false
      | e :: _ => e.1 == name), r)
  num_rows := fun r => (.ok r.rows, r)
  find_pos := fun r _ => (.ok true, r, [0, 1, 2])
  find_texcoord := fun r propIdxs => (.ok false, r, propIdxs)
  find_indices := fun r _ => (.ok true, r, [0])
  find_normal := fun r propIdxs => (.ok false, r, propIdxs)
  extract_properties := fun r propIdxs _ _ dest =>
    (.ok r.loaded, r, if r.loaded then propIdxs else dest)
  sum_of_list_counts := fun r _ => (.ok (4 * r.rows), r)
  extract_list_property := fun r _ _ dest => (.ok r.loaded, r, dest)
  requires_triangulation := fun r _ => (.ok true, r)
  num_triangles := fun r _ => (.ok (2 * r.rows), r)
  extract_triangles := fun r _ _ _ _ dest => (.ok r.loaded, r, dest)
  static_cast := id

/-- The object the sample reader builds for "cube.ply". -/
def cube : Sample :=
  { good := true, elems := [("vertex", 3), ("face", 2)], loaded := false, short := false }

/-- The object the sample reader builds for "short.ply". -/
def shortFile : Sample :=
  { good := true, elems := [("vertex", 3)], loaded := false, short := true }

/-- The object the sample reader builds for a file that is not there. -/
def absent : Sample :=
  { good := false, elems := [], loaded := false, short := false }

/-- A heap with two live wrappers: handle 1 owns `cube`, handle 2 owns `shortFile`. -/
def twoReaders : World Sample :=
  { objs := [some cube, some shortFile] }

/-- A file path the reader cannot use (file missing, unreadable or malformed), as the reader
itself tells: constructing throws, or it completes and `valid()` does not report `true`. -/
def invalidPath (P : PLYReader R E T) (filename : String) : Bool :=
  match P.ctor filename with
  | .error _ => true
  | .ok r =>
    match (P.valid r).1 with
    | .ok b => !b
    | .error _ => true

/-- Modelled from the spec: the declaration of `miniply::PLYReader::num_triangles` (miniply.h)
is not among the sources. The spec lets a reader be "mutated only via the forwarding calls
described in §6 (advancing to the next element, loading element data)", so counting triangles
is a query: it returns a count and leaves the reader object as it was. -/
def PLYReader.countsTrianglesAsQuery (P : PLYReader R E T) : Prop :=
  ∀ (r : R) (propIdx : Nat), ∃ n, P.num_triangles r propIdx = (.ok n, r)

/-- Any call of the adapter that takes a handle: a forwarding function or
`ply_reader_destroy`. -/
inductive Action where
  | op (o : Op)
  | destroy
deriving DecidableEq, Repr

/-- The heap after an adapter call on `reader`, when the behaviour is defined, whether the call
returned or an exception left it. -/
def heapAfter (P : PLYReader R E T) (w : World R) (reader : PLYReaderRef) :
    Action → Option (World R)
  | .op o => (runOp P w reader o).state?.map fun s => s.1
  | .destroy => (ply_reader_destroy w reader : Outcome E (World R) Unit).state?

/-- What a call on `reader` shows of that handle: the value or exception, the reader object the
handle owns afterwards, and the writable buffer. -/
def seenAt (reader : PLYReaderRef) (o : Outcome E (World R × Option Buffer) Res) :
    Option (Except E Res × Option R × Option Buffer) :=
  match o with
  | .ret a s => some (.ok a, s.1.deref reader, s.2)
  | .raise e s => some (.error e, s.1.deref reader, s.2)
  | .undefined => none

/-- The writable buffer an operation is given by the caller, if it takes one. -/
def Op.out : Op → Option Buffer
  | .find_pos propIdxs => some propIdxs
  | .find_texcoord propIdxs => some propIdxs
  | .find_indices propIdxs => some propIdxs
  | .find_normals propIdxs => some propIdxs
  | .extract_properties _ _ _ dest => some dest
  | .extract_list_property _ _ dest => some dest
  | .extract_triangles _ _ _ _ dest => some dest
  | _ => none

/-! ## Lemmas on the heap -/

theorem deref_ne_zero {w : World R} {h : PLYReaderRef} {r : R} (hd : w.deref h = some r) :
    h ≠ 0 := by
  rintro rfl
  simp [World.deref] at hd

theorem deref_succ (w : World R) (a : Nat) (r : R) :
    w.deref (a + 1) = some r ↔ w.objs[a]? = some (some r) := by
  simp only [World.deref, List.get?_eq_getElem?]
  cases hx : w.objs[a]? with
  | none => simp
  | some x => cases x <;> simp

theorem set_same_of_getElem? (l : List α) (a : Nat) (x : α) (hx : l[a]? = some x) :
    l.set a x = l := by
  induction l generalizing a with
  | nil => rfl
  | cons y ys ih =>
    cases a with
    | zero =>
      simp only [List.getElem?_cons_zero, Option.some.injEq] at hx
      simp [hx]
    | succ b =>
      simp only [List.getElem?_cons_succ] at hx
      simp [ih b hx]

theorem store_deref {w : World R} {h : PLYReaderRef} {r : R} (hd : w.deref h = some r) :
    w.store h r = w := by
  cases h with
  | zero => rfl
  | succ a =>
    rw [deref_succ] at hd
    cases w with
    | mk objs =>
      simp only [World.store, World.mk.injEq]
      exact set_same_of_getElem? objs a (some r) hd

theorem deref_store_same {w : World R} {h : PLYReaderRef} {r x : R}
    (hd : w.deref h = some r) : (w.store h x).deref h = some x := by
  cases h with
  | zero => simp [World.deref] at hd
  | succ a =>
    rw [deref_succ] at hd ⊢
    have hlt : a < w.objs.length := by
      rcases List.getElem?_eq_some_iff.mp hd with ⟨hlt, _⟩
      exact hlt
    simp [World.store, hlt]

theorem deref_store_ne (w : World R) {h h2 : PLYReaderRef} (x : R) (hne : h ≠ h2) :
    (w.store h x).deref h2 = w.deref h2 := by
  cases h with
  | zero => rfl
  | succ a =>
    cases h2 with
    | zero => rfl
    | succ b =>
      have hab : a ≠ b := fun hab => hne (by rw [hab])
      simp [World.deref, World.store, List.getElem?_set_ne hab]

theorem store_store (w : World R) (h : PLYReaderRef) (x y : R) :
    (w.store h x).store h y = w.store h y := by
  cases h with
  | zero => rfl
  | succ a => simp [World.store]

theorem call_ok {w : World R} {h : PLYReaderRef} {r r' : R} {m : R → Except E α × R} {a : α}
    (hd : w.deref h = some r) (hm : m r = (.ok a, r')) :
    call w h m = .ret a (w.store h r') := by
  simp [call, hd, hm]

theorem call_error {w : World R} {h : PLYReaderRef} {r r' : R} {m : R → Except E α × R} {e : E}
    (hd : w.deref h = some r) (hm : m r = (.error e, r')) :
    call w h m = .raise e (w.store h r') := by
  simp [call, hd, hm]

theorem deref_fresh (w : World R) (r : R) :
    (World.mk (w.objs ++ [some r])).deref (w.objs.length + 1) = some r := by
  simp [World.deref]

/-- On a live handle every forwarding function of the adapter is the forwarded call of the
reader method that `readerMethod` names. -/
theorem runOp_live (P : PLYReader R E T) {w : World R} {h : PLYReaderRef} {r : R}
    (hd : w.deref h = some r) (op : Op) :
    runOp P w h op = forwarded w h (readerMethod P r op) := by
  have h0 : h ≠ 0 := deref_ne_zero hd
  cases op <;>
    simp only [runOp, readerMethod, ply_reader_valid, ply_reader_has_element,
      ply_reader_load_element, ply_reader_next_element, ply_reader_element_is,
      ply_reader_num_rows, ply_reader_find_pos, ply_reader_find_texcoord,
      ply_reader_find_indices, ply_reader_find_normals, ply_reader_extract_properties,
      ply_reader_sum_of_list_counts, ply_reader_extract_list_property,
      ply_reader_requires_triangulation, ply_reader_num_triangles,
      ply_reader_extract_triangles, call, callBuf, hd, h0, ne_eq, not_false_eq_true,
      if_true, if_false, plainCall, bufferedCall] <;>
    split <;> rename_i heq <;> simp [heq, Outcome.plain, Outcome.buffered, forwarded, Except.map]

theorem runOp_null (P : PLYReader R E T) (w : World R) (op : Op) :
    runOp P w 0 op = .ret op.flat (w, op.out) := by
  cases op <;> rfl

theorem runOp_dangling (P : PLYReader R E T) {w : World R} {h : PLYReaderRef} (h0 : h ≠ 0)
    (hd : w.deref h = none) (op : Op) : runOp P w h op = .undefined := by
  cases op <;>
    simp [runOp, ply_reader_valid, ply_reader_has_element,
      ply_reader_load_element, ply_reader_next_element, ply_reader_element_is,
      ply_reader_num_rows, ply_reader_find_pos, ply_reader_find_texcoord,
      ply_reader_find_indices, ply_reader_find_normals, ply_reader_extract_properties,
      ply_reader_sum_of_list_counts, ply_reader_extract_list_property,
      ply_reader_requires_triangulation, ply_reader_num_triangles,
      ply_reader_extract_triangles, call, callBuf, hd, h0, Outcome.plain, Outcome.buffered]

theorem forwarded_state (w : World R) (h : PLYReaderRef) (x : Except E Res × R × Option Buffer) :
    (forwarded w h x).state? = some (w.store h x.2.1, x.2.2) := by
  rcases x with ⟨x, r, b⟩
  cases x <;> rfl

/-- The heap after a forwarding call on `h` is the heap before it, but for the object at
`h`. -/
theorem runOp_frame (P : PLYReader R E T) {w : World R} {h h2 : PLYReaderRef} (op : Op)
    {s : World R × Option Buffer} (hs : (runOp P w h op).state? = some s) (hne : h ≠ h2) :
    s.1.deref h2 = w.deref h2 := by
  by_cases h0 : h = 0
  · subst h0
    rw [runOp_null] at hs
    simp only [Outcome.state?, Option.some.injEq] at hs
    rw [← hs]
  · cases hd : w.deref h with
    | none =>
      rw [runOp_dangling P h0 hd] at hs
      simp [Outcome.state?] at hs
    | some r =>
      rw [runOp_live P hd, forwarded_state] at hs
      simp only [Option.some.injEq] at hs
      rw [← hs]
      exact deref_store_ne w _ hne

theorem destroy_frame {w w' : World R} {h h2 : PLYReaderRef}
    (hs : (ply_reader_destroy w h : Outcome E (World R) Unit).state? = some w') (hne : h ≠ h2) :
    w'.deref h2 = w.deref h2 := by
  cases h with
  | zero =>
    simp only [ply_reader_destroy, Outcome.state?, Option.some.injEq] at hs
    rw [← hs]
  | succ a =>
    simp only [ply_reader_destroy] at hs
    cases hd : w.deref (a + 1) with
    | none => simp [hd, Outcome.state?] at hs
    | some r =>
      simp only [hd, Outcome.state?, Option.some.injEq] at hs
      rw [← hs]
      cases h2 with
      | zero => rfl
      | succ b =>
        have hab : a ≠ b := fun hab => hne (by rw [hab])
        simp [World.deref, List.getElem?_set_ne hab]

theorem seenAt_forwarded {w : World R} {h : PLYReaderRef} {r : R} (hd : w.deref h = some r)
    (x : Except E Res × R × Option Buffer) :
    seenAt h (forwarded w h x) = some (x.1, some x.2.1, x.2.2) := by
  rcases x with ⟨x, r', b⟩
  cases x <;> simp [forwarded, seenAt, deref_store_same hd]


/-! ## Null handles -/

/-- C1: every query and extraction function called with a null handle returns its documented
default, whatever the other arguments: `false` for the twelve boolean functions and `0` for the
three counts. -/
theorem null_handle_returns_default (P : PLYReader R E T) (w : World R) (name : String)
    (propIdxs pos dest : Buffer) (numProps propIdx numVerts : Nat) (destType : Int) :
    (ply_reader_valid P w 0).value? = some false
    ∧ (ply_reader_has_element P w 0).value? = some false
    ∧ (ply_reader_load_element P w 0).value? = some false
    ∧ (ply_reader_element_is P w 0 name).value? = some false
    ∧ (ply_reader_find_pos P w 0 propIdxs).value? = some false
    ∧ (ply_reader_find_texcoord P w 0 propIdxs).value? = some false
    ∧ (ply_reader_find_indices P w 0 propIdxs).value? = some false
    ∧ (ply_reader_find_normals P w 0 propIdxs).value? = some false
    ∧ (ply_reader_extract_properties P w 0 propIdxs numProps destType dest).value? = some false
    ∧ (ply_reader_extract_list_property P w 0 propIdx destType dest).value? = some false
    ∧ (ply_reader_requires_triangulation P w 0 propIdx).value? = some false
    ∧ (ply_reader_extract_triangles P w 0 propIdx pos numVerts destType dest).value?
        = some false
    ∧ (ply_reader_num_rows P w 0).value? = some 0
    ∧ (ply_reader_sum_of_list_counts P w 0 propIdx).value? = some 0
    ∧ (ply_reader_num_triangles P w 0 propIdx).value? = some 0 := by
  simp [ply_reader_valid, ply_reader_has_element, ply_reader_load_element,
    ply_reader_element_is, ply_reader_find_pos, ply_reader_find_texcoord,
    ply_reader_find_indices, ply_reader_find_normals, ply_reader_extract_properties,
    ply_reader_extract_list_property, ply_reader_requires_triangulation,
    ply_reader_extract_triangles, ply_reader_num_rows, ply_reader_sum_of_list_counts,
    ply_reader_num_triangles, Outcome.value?]

/-- C6: `ply_reader_destroy` and `ply_reader_next_element` called with a null handle are
no-ops. Each returns with the heap exactly as it was, so every reader object is unchanged, and
the outcome is the same whatever the reader's methods are: none of them is invoked. -/
theorem null_handle_no_op (P P' : PLYReader R E T) (w : World R) :
    (ply_reader_destroy w 0 : Outcome E (World R) Unit) = .ret () w
    ∧ ply_reader_next_element P w 0 = .ret () w
    ∧ ply_reader_next_element P w 0 = ply_reader_next_element P' w 0
    ∧ (∀ w' : World R, (ply_reader_next_element P w 0).state? = some w' →
        ∀ h, w'.deref h = w.deref h)
    ∧ (∀ w' : World R, (ply_reader_destroy w 0 : Outcome E (World R) Unit).state? = some w' →
        ∀ h, w'.deref h = w.deref h) := by
  refine ⟨rfl, ?_, ?_, ?_, ?_⟩
  · simp [ply_reader_next_element]
  · simp [ply_reader_next_element]
  · intro w' hw h
    simp [ply_reader_next_element, Outcome.state?] at hw
    rw [← hw]
  · intro w' hw h
    simp [ply_reader_destroy, Outcome.state?] at hw
    rw [← hw]

/-- C7: a property lookup or extraction called with a null handle leaves the caller's buffers
alone. The writable buffer (`propIdxs` of the lookups, `dest` of the extractions) holds after
the call what it held before, and the heap is unchanged; the whole outcome is the same for any
other contents of the input buffers (`propIdxs` of `extract_properties`, `pos` of
`extract_triangles`), and the value returned is the same for any contents of the writable
buffer: nothing is read. -/
theorem null_handle_leaves_buffers (P : PLYReader R E T) (w : World R)
    (propIdxs propIdxs' pos pos' dest dest' : Buffer) (numProps propIdx numVerts : Nat)
    (destType : Int) :
    (ply_reader_find_pos P w 0 propIdxs).state? = some (w, propIdxs)
    ∧ (ply_reader_find_texcoord P w 0 propIdxs).state? = some (w, propIdxs)
    ∧ (ply_reader_find_indices P w 0 propIdxs).state? = some (w, propIdxs)
    ∧ (ply_reader_find_normals P w 0 propIdxs).state? = some (w, propIdxs)
    ∧ (ply_reader_extract_properties P w 0 propIdxs numProps destType dest).state?
        = some (w, dest)
    ∧ (ply_reader_extract_list_property P w 0 propIdx destType dest).state? = some (w, dest)
    ∧ (ply_reader_extract_triangles P w 0 propIdx pos numVerts destType dest).state?
        = some (w, dest)
    ∧ ply_reader_extract_properties P w 0 propIdxs numProps destType dest
        = ply_reader_extract_properties P w 0 propIdxs' numProps destType dest
    ∧ ply_reader_extract_triangles P w 0 propIdx pos numVerts destType dest
        = ply_reader_extract_triangles P w 0 propIdx pos' numVerts destType dest
    ∧ (ply_reader_find_pos P w 0 propIdxs).result?
        = (ply_reader_find_pos P w 0 propIdxs').result?
    ∧ (ply_reader_find_texcoord P w 0 propIdxs).result?
        = (ply_reader_find_texcoord P w 0 propIdxs').result?
    ∧ (ply_reader_find_indices P w 0 propIdxs).result?
        = (ply_reader_find_indices P w 0 propIdxs').result?
    ∧ (ply_reader_find_normals P w 0 propIdxs).result?
        = (ply_reader_find_normals P w 0 propIdxs').result?
    ∧ (ply_reader_extract_properties P w 0 propIdxs numProps destType dest).result?
        = (ply_reader_extract_properties P w 0 propIdxs numProps destType dest').result?
    ∧ (ply_reader_extract_list_property P w 0 propIdx destType dest).result?
        = (ply_reader_extract_list_property P w 0 propIdx destType dest').result?
    ∧ (ply_reader_extract_triangles P w 0 propIdx pos numVerts destType dest).result?
        = (ply_reader_extract_triangles P w 0 propIdx pos numVerts destType dest').result? := by
  simp [ply_reader_find_pos, ply_reader_find_texcoord, ply_reader_find_indices,
    ply_reader_find_normals, ply_reader_extract_properties, ply_reader_extract_list_property,
    ply_reader_extract_triangles, Outcome.state?, Outcome.result?]

/-! ## Creation -/

/-- C2: for every file path, if constructing the underlying reader throws, `ply_reader_create`
returns the null handle: the call returns (no exception leaves it) and the heap is as it
was. -/
theorem create_catches_failure (P : PLYReader R E T) (w : World R) (filename : String) (e : E)
    (hthrow : P.ctor filename = .error e) :
    ply_reader_create P w filename = .ret 0 w := by
  simp [ply_reader_create, hthrow]

/-- Witness of C2: the sample reader throws on "locked.ply". -/
theorem create_catches_failure_witness :
    sampleReader.ctor "locked.ply" = .error SampleError.open_failed
    ∧ ply_reader_create sampleReader twoReaders "locked.ply" = .ret 0 twoReaders :=
  ⟨by simp [sampleReader],
    create_catches_failure sampleReader twoReaders "locked.ply" .open_failed
      (by simp [sampleReader])⟩

/-- C3 (counterexample): "absent.ply" is an invalid path for the sample reader, whose
constructor completes and reports the failure through `valid()`; `ply_reader_create` returns
handle 1, not null. -/
theorem create_invalid_path_not_null :
    invalidPath sampleReader "absent.ply" = true
    ∧ ply_reader_create sampleReader { objs := [] } "absent.ply"
        = .ret 1 { objs := [some absent] } := by
  constructor <;> simp [invalidPath, ply_reader_create, sampleReader, absent]

/-- C3 (amended): for every invalid file path `ply_reader_create` returns a handle on which
`ply_reader_valid` does not return `true`; the handle is null exactly when constructing the
reader throws. -/
theorem create_invalid_path (P : PLYReader R E T) (w : World R) (filename : String)
    (hinv : invalidPath P filename = true) :
    ∃ h w', ply_reader_create P w filename = .ret h w'
      ∧ (ply_reader_valid P w' h).value? ≠ some true
      ∧ (h = 0 ↔ ∃ e, P.ctor filename = .error e) := by
  unfold invalidPath at hinv
  cases hc : P.ctor filename with
  | error e =>
    refine ⟨0, w, by simp [ply_reader_create, hc], ?_, by simp⟩
    simp [ply_reader_valid, Outcome.value?]
  | ok r =>
    simp only [hc] at hinv
    refine ⟨w.objs.length + 1, { objs := w.objs ++ [some r] },
      by simp [ply_reader_create, hc], ?_, by simp⟩
    have hd := deref_fresh w r
    simp only [ply_reader_valid, ne_eq, Nat.add_one_ne_zero, not_false_eq_true, if_true]
    rcases hv : P.valid r with ⟨x, r'⟩
    cases x with
    | error e => simp [call_error hd hv, Outcome.value?]
    | ok b =>
      simp only [hv, Bool.not_eq_true'] at hinv
      simp [call_ok hd hv, Outcome.value?, hinv]

/-- Witness of C3 (amended): the invalid path "absent.ply" of the sample reader. -/
theorem create_invalid_path_witness :
    invalidPath sampleReader "absent.ply" = true
    ∧ ∃ h w', ply_reader_create sampleReader twoReaders "absent.ply" = .ret h w'
      ∧ (ply_reader_valid sampleReader w' h).value? ≠ some true
      ∧ (h = 0 ↔ ∃ e, sampleReader.ctor "absent.ply" = .error e) :=
  ⟨by simp [invalidPath, sampleReader],
    create_invalid_path sampleReader twoReaders "absent.ply"
      (by simp [invalidPath, sampleReader])⟩

/-- C10: when the reader's constructor completes, `ply_reader_create` returns a non-null handle
that owns the constructed reader, whether or not that reader is valid. `ply_reader_valid(h)`
returns `true` exactly when `h` is non-null and the reader it owns reports `valid()` true. So a
reader constructed normally but invalid gives a non-null handle on which `ply_reader_valid`
returns `false`. -/
theorem create_non_null_handle (P : PLYReader R E T) (w : World R) (filename : String) (r : R)
    (hctor : P.ctor filename = .ok r) :
    ∃ h w', ply_reader_create P w filename = .ret h w'
      ∧ h ≠ 0
      ∧ w'.deref h = some r
      ∧ (∀ (w2 : World R) (h2 : PLYReaderRef),
          (ply_reader_valid P w2 h2).value? = some true
            ↔ h2 ≠ 0 ∧ ∃ r2, w2.deref h2 = some r2 ∧ (P.valid r2).1 = .ok true)
      ∧ ((P.valid r).1 = .ok false → (ply_reader_valid P w' h).value? = some false) := by
  have hd := deref_fresh w r
  refine ⟨w.objs.length + 1, { objs := w.objs ++ [some r] },
    by simp [ply_reader_create, hctor], by simp, hd, ?_, ?_⟩
  · intro w2 h2
    by_cases h0 : h2 = 0
    · simp [ply_reader_valid, h0, Outcome.value?]
    · simp only [ply_reader_valid, ne_eq, h0, not_false_eq_true, if_true, true_and]
      cases hd2 : w2.deref h2 with
      | none => simp [call, hd2, Outcome.value?]
      | some r2 =>
        rcases hv : P.valid r2 with ⟨x, r'⟩
        cases x with
        | error e => simp [call_error hd2 hv, Outcome.value?, hv]
        | ok b => simp [call_ok hd2 hv, Outcome.value?, hv]
  · intro hv
    simp only [ply_reader_valid, ne_eq, Nat.add_one_ne_zero, not_false_eq_true, if_true]
    rcases hv2 : P.valid r with ⟨x, r'⟩
    rw [hv2] at hv
    simp only at hv
    subst hv
    simp [call_ok hd hv2, Outcome.value?]

/-- Witness of C10: the sample reader completes construction for "absent.ply". -/
theorem create_non_null_handle_witness :
    sampleReader.ctor "absent.ply" = .ok absent
    ∧ ∃ h w', ply_reader_create sampleReader twoReaders "absent.ply" = .ret h w'
      ∧ h ≠ 0
      ∧ w'.deref h = some absent
      ∧ (∀ (w2 : World Sample) (h2 : PLYReaderRef),
          (ply_reader_valid sampleReader w2 h2).value? = some true
            ↔ h2 ≠ 0 ∧ ∃ r2, w2.deref h2 = some r2 ∧ (sampleReader.valid r2).1 = .ok true)
      ∧ ((sampleReader.valid absent).1 = .ok false →
          (ply_reader_valid sampleReader w' h).value? = some false) :=
  ⟨by simp [sampleReader, absent],
    create_non_null_handle sampleReader twoReaders "absent.ply" absent
      (by simp [sampleReader, absent])⟩

/-! ## Forwarding -/

/-- C4: for every live (non-null) handle and every sequence of adapter operations on it, each
call shows exactly what the corresponding method of the wrapped reader shows when called
directly with the same arguments (the type tag converted by the cast only), and at the end the
heap is the heap at the start with the reader object replaced by the one the direct calls end
in: the adapter adds no state of its own. `ply_reader_find_normals` is the reader's
`find_normal` and `ply_reader_next_element` its `next_element`. -/
theorem adapter_is_pass_through (P : PLYReader R E T) (w : World R) (h : PLYReaderRef) (r : R)
    (hd : w.deref h = some r) (ops : List Op) :
    runOps P w h ops
      = some ((readerMethods P r ops).1, w.store h (readerMethods P r ops).2) := by
  induction ops generalizing w r with
  | nil => simp [runOps, readerMethods, store_deref hd]
  | cons op ops ih =>
    rcases hm : readerMethod P r op with ⟨x, r', b⟩
    have hd' : (w.store h r').deref h = some r' := deref_store_same hd
    cases x with
    | ok a =>
      simp [runOps, runOp_live P hd, hm, forwarded, ih _ r' hd', readerMethods, store_store]
    | error e =>
      simp [runOps, runOp_live P hd, hm, forwarded, ih _ r' hd', readerMethods, store_store]

/-- Witness of C4: the scenario of a file with a "vertex" element of 3 rows and a "face"
element of 2 rows, on handle 1 of the sample heap. -/
theorem adapter_is_pass_through_witness :
    twoReaders.deref 1 = some cube
    ∧ runOps sampleReader twoReaders 1
        [.load_element, .num_rows, .find_normals [7, 7, 7], .next_element, .load_element,
          .num_rows, .next_element, .has_element]
      = some ((readerMethods sampleReader cube
          [.load_element, .num_rows, .find_normals [7, 7, 7], .next_element, .load_element,
            .num_rows, .next_element, .has_element]).1,
        twoReaders.store 1 (readerMethods sampleReader cube
          [.load_element, .num_rows, .find_normals [7, 7, 7], .next_element, .load_element,
            .num_rows, .next_element, .has_element]).2) :=
  ⟨rfl, adapter_is_pass_through sampleReader twoReaders 1 cube rfl _⟩

/-- C5 (counterexample): the sample reader's `load_element` throws on the reader of
"short.ply"; `ply_reader_load_element` on handle 2, which owns that reader, does not return
`false`: the exception leaves the function. -/
theorem load_element_failure_escapes :
    twoReaders.deref 2 = some shortFile
    ∧ sampleReader.load_element shortFile = (.error SampleError.bad_data, shortFile)
    ∧ ply_reader_load_element sampleReader twoReaders 2
        = .raise SampleError.bad_data twoReaders := by
  refine ⟨rfl, rfl, ?_⟩
  simp [ply_reader_load_element, call, twoReaders, World.deref, World.store, sampleReader,
    shortFile]

/-- C5 (amended): only `ply_reader_create` converts a thrown failure, into the null handle. The
other operations have no catching region: on a live handle, a failure thrown by the forwarded
reader method leaves the adapter function unchanged, with the reader as the method left it. -/
theorem only_create_catches (P : PLYReader R E T) (w : World R) (h : PLYReaderRef) (r r' : R)
    (op : Op) (e : E) (b : Option Buffer) (hd : w.deref h = some r)
    (hthrow : readerMethod P r op = (.error e, r', b)) :
    runOp P w h op = .raise e (w.store h r', b)
    ∧ ∀ filename e', P.ctor filename = .error e' → ply_reader_create P w filename = .ret 0 w := by
  constructor
  · rw [runOp_live P hd, hthrow]
    rfl
  · intro filename e' he
    simp [ply_reader_create, he]

/-- Witness of C5 (amended): loading on the handle that owns the reader of "short.ply". -/
theorem only_create_catches_witness :
    (twoReaders.deref 2 = some shortFile
      ∧ readerMethod sampleReader shortFile .load_element
          = (.error SampleError.bad_data, shortFile, none))
    ∧ (runOp sampleReader twoReaders 2 .load_element
          = .raise SampleError.bad_data (twoReaders.store 2 shortFile, none)
      ∧ ∀ filename e', sampleReader.ctor filename = .error e' →
          ply_reader_create sampleReader twoReaders filename = .ret 0 twoReaders) :=
  ⟨⟨rfl, rfl⟩,
    only_create_catches sampleReader twoReaders 2 shortFile shortFile .load_element
      .bad_data none rfl rfl⟩

/-! ## Triangulation -/

/-- C8: on a non-null live handle, for every property index, two successive calls of
`ply_reader_num_triangles` (nothing in between, so no `ply_reader_next_element`) return the
same value. This holds for a reader whose `num_triangles` is a query, whether or not the
current element requires triangulation. -/
theorem num_triangles_twice (P : PLYReader R E T) (hq : P.countsTrianglesAsQuery)
    (w : World R) (h : PLYReaderRef) (r : R) (hd : w.deref h = some r) (propIdx : Nat) :
    ∃ n w1 w2, ply_reader_num_triangles P w h propIdx = .ret n w1
      ∧ ply_reader_num_triangles P w1 h propIdx = .ret n w2 := by
  obtain ⟨n, hn⟩ := hq r propIdx
  have h0 : h ≠ 0 := deref_ne_zero hd
  have hcall : ply_reader_num_triangles P w h propIdx = .ret n w := by
    simp only [ply_reader_num_triangles, ne_eq, h0, not_false_eq_true, if_true]
    rw [call_ok hd hn, store_deref hd]
  exact ⟨n, w, w, hcall, hcall⟩

/-- Witness of C8: the sample reader counts triangles without changing the reader; handle 1
owns the reader of "cube.ply", whose elements require triangulation. -/
theorem num_triangles_twice_witness :
    (sampleReader.countsTrianglesAsQuery ∧ twoReaders.deref 1 = some cube)
    ∧ ∃ n w1 w2, ply_reader_num_triangles sampleReader twoReaders 1 0 = .ret n w1
      ∧ ply_reader_num_triangles sampleReader w1 1 0 = .ret n w2 :=
  ⟨⟨fun r _ => ⟨2 * r.rows, rfl⟩, rfl⟩,
    num_triangles_twice sampleReader (fun r _ => ⟨2 * r.rows, rfl⟩) twoReaders 1 cube rfl 0⟩

/-! ## Independence of handles -/

/-- C9: for two distinct handles `h1` and `h2`, `h2` live, any adapter call on `h1` (a
forwarding function, `ply_reader_next_element` and `ply_reader_load_element` among them, or
`ply_reader_destroy`) leaves the reader owned by `h2` unchanged, and every later operation on
`h2` shows what it would have shown without the call on `h1`. The heap of wrapper objects is
all the state there is. -/
theorem handles_independent (P : PLYReader R E T) (w w' : World R) (h1 h2 : PLYReaderRef)
    (r2 : R) (a : Action) (hne : h1 ≠ h2) (hd2 : w.deref h2 = some r2)
    (hstep : heapAfter P w h1 a = some w') :
    w'.deref h2 = some r2
    ∧ ∀ op2, seenAt h2 (runOp P w' h2 op2) = seenAt h2 (runOp P w h2 op2) := by
  have hd2' : w'.deref h2 = some r2 := by
    cases a with
    | op o =>
      simp only [heapAfter, Option.map_eq_some'] at hstep
      obtain ⟨s, hs, hw⟩ := hstep
      rw [← hw, runOp_frame P o hs hne, hd2]
    | destroy =>
      simp only [heapAfter] at hstep
      rw [destroy_frame hstep hne, hd2]
  refine ⟨hd2', fun op2 => ?_⟩
  rw [runOp_live P hd2', runOp_live P hd2, seenAt_forwarded hd2', seenAt_forwarded hd2]

/-- Witness of C9: destroying handle 1 of the sample heap leaves handle 2 as it was. -/
theorem handles_independent_witness :
    ((1 : PLYReaderRef) ≠ 2 ∧ twoReaders.deref 2 = some shortFile
      ∧ heapAfter sampleReader twoReaders 1 .destroy = some { objs := [none, some shortFile] })
    ∧ ((World.mk [none, some shortFile]).deref 2 = some shortFile
      ∧ ∀ op2, seenAt 2 (runOp sampleReader { objs := [none, some shortFile] } 2 op2)
          = seenAt 2 (runOp sampleReader twoReaders 2 op2)) :=
  ⟨⟨by decide, rfl, rfl⟩,
    handles_independent sampleReader twoReaders { objs := [none, some shortFile] } 1 2
      shortFile .destroy (by decide) rfl rfl⟩

end PLYSwift
